import Mathlib

/-!
Shallow embedding of the scholarship rule engine (`SD23039_Lab3.py`):
the condition evaluator `evaluate_condition`, the rule matcher
`rule_matches`, the resolution function `run_rules`, and the built-in
knowledge base `SCHOLARSHIP_RULES`.  Python numbers (ints and floats)
are modelled by exact rationals; Python's dynamically typed scalar
values by the sum type `PyVal`.
-/

namespace SD23039

/-- A Python scalar value as it may occur in a fact set or inside a
condition triple: an integer, a float (modelled by its exact rational
value), a string, or any other object (`obj`), which is non-numeric. -/
inductive PyVal where
  | int (n : Int)
  | float (q : ℚ)
  | str (s : String)
  | obj
deriving DecidableEq, Repr

/-- A well-formed action dictionary `{"decision": ..., "reason": ...}`. -/
structure Action where
  decision : String
  reason : String
deriving DecidableEq, Repr

/-- The value stored under a rule's `"action"` key: either a well-formed
action dictionary, or any other Python value (`raw`), which the engine
carries verbatim. -/
inductive AVal where
  | act (a : Action)
  | raw (v : PyVal)
deriving DecidableEq, Repr

/-- A fact set: Python dict from field name to value, modelled as an
association list with distinct keys looked up by `List.lookup`. -/
def Facts : Type := List (String × PyVal)

/-- A rule dictionary.  Every key may be absent (`none`), mirroring
`rule.get(...)` accesses in the source. -/
structure Rule where
  name : Option String
  priority : Option ℚ
  conditions : Option (List (List PyVal))
  action : Option AVal
deriving DecidableEq, Repr

/-- The operator table `OPS`: maps an operator symbol to its comparison
function, `none` for an unrecognized symbol (`op not in OPS`). -/
def opFun (op : String) : Option (ℚ → ℚ → Bool) :=
  if op = "==" then some (fun a b => a == b)
  else if op = "!=" then some (fun a b => !(a == b))
  else if op = ">" then some (fun a b => b < a)
  else if op = ">=" then some (fun a b => b ≤ a)
  else if op = "<" then some (fun a b => a < b)
  else if op = "<=" then some (fun a b => a ≤ b)
  else none

/-- Digits of a decimal numeral to a natural number. -/
def digitsToNat (l : List Char) : Nat :=
  l.foldl (fun n c => 10 * n + (c.toNat - ('0').toNat)) 0

/-- Model of Python's `float(s)` on a string: an optional sign followed
by a decimal numeral with an optional fractional part (at least one
digit overall); any other string fails (`none`, i.e. `ValueError`).
The model covers plain decimal numerals only: scientific notation,
inf/nan, surrounding whitespace and digit-group underscores, which
Python's `float()` also accepts, are rejected here; such strings
evaluate to a non-match in the model where the program would compare.
None of the claims turns on those forms. -/
def parseFloatStr (s : String) : Option ℚ :=
  let cs := s.toList
  let neg : Bool := cs.head? = some '-'
  let cs := if cs.head? = some '-' ∨ cs.head? = some '+' then cs.tail else cs
  let intPart := cs.takeWhile Char.isDigit
  let rest := cs.dropWhile Char.isDigit
  let fromParts (ip fp : List Char) : ℚ :=
    let denom : Nat := 10 ^ fp.length
    let numAbs : Nat := digitsToNat ip * denom + digitsToNat fp
    mkRat (if neg then -(numAbs : Int) else (numAbs : Int)) denom
  match rest with
  | [] =>
    if intPart.isEmpty then none
    else some (fromParts intPart [])
  | '.' :: frac =>
    if frac.all Char.isDigit && !(intPart.isEmpty && frac.isEmpty) then
      some (fromParts intPart frac)
    else none
  | _ => none

/-- Model of Python's `float(x)` coercion: numbers convert to their
value, numeric strings parse, anything else raises (`none`).  Every
integer converts exactly here, whereas `float()` raises a (caught)
`OverflowError` on integers beyond double range; and floats are exact
rationals, without IEEE rounding.  Neither gap is claim-material. -/
def pyFloat : PyVal → Option ℚ
  | .int n => some (n : ℚ)
  | .float q => some q
  | .str s => parseFloatStr s
  | .obj => none

/-- `field not in facts` test combined with the fact lookup: a fact set
has string keys, so a non-string field is never present. -/
def fieldLookup (facts : Facts) : PyVal → Option PyVal
  | .str f => List.lookup f facts
  | _ => none

/-- `op not in OPS` test combined with the table lookup: a non-string
operator is never in `OPS`. -/
def opLookup : PyVal → Option (ℚ → ℚ → Bool)
  | .str o => opFun o
  | _ => none

/-- `evaluate_condition(facts, cond)`: a condition must be a 3-element
list `[field, op, value]`; an absent field, unrecognized operator, or a
value (on either side) that does not coerce to float yields `false`. -/
def evaluate_condition (facts : Facts) (cond : List PyVal) : Bool :=
  match cond with
  | [field, op, value] =>
    match fieldLookup facts field, opLookup op with
    | some fv, some g =>
      match pyFloat fv, pyFloat value with
      | some a, some b => g a b
      | _, _ => false
    | _, _ => false
  | _ => false

/-- `rule_matches(facts, rule)`: all conditions must hold (AND); a
missing `"conditions"` key defaults to the empty list. -/
def rule_matches (facts : Facts) (rule : Rule) : Bool :=
  (rule.conditions.getD []).all (fun c => evaluate_condition facts c)

/-- An element of a condition list as the editable JSON rule set can
supply it: either a hashable scalar value, or an unhashable JSON array
or object, on which Python's `in` membership test raises `TypeError`. -/
inductive JElem where
  | val (v : PyVal)
  | unhashable
deriving DecidableEq, Repr

/-- A JSON value sitting in a slot of a rule's `"conditions"` array:
an array (the well-formed shape), a string (`len` counts characters
and a 3-character string unpacks into its characters), an object
(`len` counts keys and a 3-key object unpacks into its string keys),
or a sizeless value — a JSON number, boolean or null — on which
`len(cond)` raises `TypeError`. -/
inductive JCond where
  | arr (l : List JElem)
  | str (s : String)
  | obj (keys : List String)
  | sizeless
deriving DecidableEq, Repr

/-- `evaluate_condition` over the full domain of JSON condition values,
tracking the `TypeError` paths that run before the `try:` block and are
therefore uncaught: `none` models an uncaught `TypeError` escaping the
evaluator; `some b` a normal return.  `len(cond)` raises on a sizeless
condition; the test `field not in facts or op not in OPS` raises on an
unhashable field and — only when the field is present, because `or`
short-circuits — on an unhashable operator.  Everything from the
membership tests on is the code already embedded as
`evaluate_condition`, so the scalar paths delegate to it; an
unhashable value slot is reached only inside the `try:`, where
`float(...)` raising `TypeError` is caught and yields `False`, exactly
as a non-numeric scalar (`PyVal.obj`) does. -/
def evaluate_condition_checked (facts : Facts) (cond : JCond) : Option Bool :=
  match cond with
  | .sizeless => none
  | .str s =>
    match s.toList with
    | [a, b, c] =>
      some (evaluate_condition facts [.str a.toString, .str b.toString, .str c.toString])
    | _ => some false
  | .obj keys =>
    match keys with
    | [a, b, c] => some (evaluate_condition facts [.str a, .str b, .str c])
    | _ => some false
  | .arr l =>
    match l with
    | [.unhashable, _, _] => none
    | [.val fv, .unhashable, _] =>
      if (fieldLookup facts fv).isSome then none else some false
    | [.val fv, .val ov, .unhashable] =>
      some (evaluate_condition facts [fv, ov, PyVal.obj])
    | [.val fv, .val ov, .val vv] =>
      some (evaluate_condition facts [fv, ov, vv])
    | _ => some false

/-- The sort key `r.get("priority", 0)`. -/
def prio (r : Rule) : ℚ :=
  r.priority.getD 0

/-- The default action returned when no rule matches. -/
def noMatchAction : AVal :=
  .act ⟨"REJECT", "No rule criteria matched for an award or review"⟩

/-- The default action substituted when the winning rule has no
`"action"` key. -/
def noActionDefault : AVal :=
  .act ⟨"REVIEW", "Matched rule has no defined action"⟩

/-- The ordering used by `sorted(fired, key=priority, reverse=True)`:
`a` may be placed before `b` iff `prio b ≤ prio a`.  Insertion sort
with this relation is the stable descending sort Python performs. -/
def priorityGE (a b : Rule) : Prop := prio b ≤ prio a

instance : DecidableRel priorityGE := fun a b => inferInstanceAs (Decidable (prio b ≤ prio a))

instance : IsTotal Rule priorityGE := ⟨fun a b => le_total (prio b) (prio a)⟩

instance : IsTrans Rule priorityGE := ⟨fun _ _ _ hab hbc => le_trans hbc hab⟩

/-- `run_rules(facts, rules)`: collect the matching rules; with none,
return the fixed reject default and an empty list; otherwise sort the
matching rules stably by priority descending and return the head's
action (or the review default if the head has no `"action"` key)
together with the sorted list. -/
def run_rules (facts : Facts) (rules : List Rule) : AVal × List Rule :=
  match rules.filter (fun r => rule_matches facts r) with
  | [] => (noMatchAction, [])
  | r :: rs =>
    let fired_sorted := List.insertionSort priorityGE (r :: rs)
    ((fired_sorted.headD r).action.getD noActionDefault, fired_sorted)

/-- The built-in knowledge base `SCHOLARSHIP_RULES`, field for field. -/
def SCHOLARSHIP_RULES : List Rule :=
  [ { name := some "Top merit candidate"
    , priority := some 100
    , conditions := some
        [ [.str "cgpa", .str ">=", .float (mkRat 37 10)]
        , [.str "co_curricular score", .str ">=", .int 80]
        , [.str "family_income", .str "<=", .int 8000]
        , [.str "disciplinary_actions", .str "==", .int 0] ]
    , action := some (.act ⟨"AWARD FULL",
        "Excellent academic & co-curricular performance, with acceptable need"⟩) }
  , { name := some "Low CGPA not eligible"
    , priority := some 95
    , conditions := some [ [.str "cgpa", .str "<", .float (mkRat 5 2)] ]
    , action := some (.act ⟨"REJECT",
        "CGPA below minimum scholarship requirement"⟩) }
  , { name := some "Serious disciplinary record"
    , priority := some 90
    , conditions := some [ [.str "disciplinary_actions", .str ">=", .int 2] ]
    , action := some (.act ⟨"REJECT", "Too many disciplinary records"⟩) }
  , { name := some "Good candidate partial scholarship"
    , priority := some 80
    , conditions := some
        [ [.str "cgpa", .str ">=", .float (mkRat 33 10)]
        , [.str "co_curricular score", .str ">=", .int 60]
        , [.str "family_income", .str "<=", .int 12000]
        , [.str "disciplinary_actions", .str "<=", .int 1] ]
    , action := some (.act ⟨"AWARD PARTIAL",
        "Good academic & involvement record with moderate need"⟩) }
  , { name := some "Need-based review"
    , priority := some 70
    , conditions := some
        [ [.str "cgpa", .str ">=", .float (mkRat 5 2)]
        , [.str "family_income", .str "<=", .int 4000] ]
    , action := some (.act ⟨"REVIEW",
        "High need but borderline academic score"⟩) } ]

/-- The list of matching ("fired") rules collected by `run_rules`. -/
def firedOf (facts : Facts) (rules : List Rule) : List Rule :=
  rules.filter (fun r => rule_matches facts r)

/-- Whether the value in an `"action"` slot is a well-formed action
dictionary (a decision label plus a reason string). -/
def AVal.isWellFormed : AVal → Bool
  | .act _ => true
  | .raw _ => false

/-- The applicant facts of the end-to-end example:
cgpa 3.8, co-curricular score 85, family income 7000, no disciplinary
actions. -/
def demoFacts : Facts :=
  [("cgpa", .float (mkRat 19 5)), ("family_income", .int 7000),
   ("co_curricular score", .int 85), ("disciplinary_actions", .int 0)]

/-- A rule that always matches but whose `"action"` value is the plain
number `5`, not an action dictionary. -/
def malformedActionRule : Rule :=
  ⟨some "malformed", some 1, some [], some (.raw (.int 5))⟩

/-- An unconditionally matching rule with priority 1 and no action. -/
def rulePos : Rule := ⟨some "pos", some 1, some [], none⟩

/-- An unconditionally matching rule with no priority key. -/
def ruleNoPrio : Rule := ⟨some "noprio", none, some [], none⟩

/-- An unconditionally matching rule with priority -1. -/
def ruleNeg : Rule := ⟨some "neg", some (-1), some [], none⟩

/-- First of two unconditionally matching rules tied at priority 5. -/
def ruleTieA : Rule := ⟨some "tieA", some 5, some [], none⟩

/-- Second of two unconditionally matching rules tied at priority 5. -/
def ruleTieB : Rule := ⟨some "tieB", some 5, some [], none⟩

/-! Helper lemmas about the sort and the shape of the result. -/

theorem run_rules_of_fired_nil (facts : Facts) (rules : List Rule)
    (h : firedOf facts rules = []) :
    run_rules facts rules = (noMatchAction, []) := by
  have h' : rules.filter (fun r => rule_matches facts r) = [] := h
  unfold run_rules
  rw [h']

theorem run_rules_of_fired_cons (facts : Facts) (rules : List Rule) (r : Rule) (rs : List Rule)
    (h : firedOf facts rules = r :: rs) :
    run_rules facts rules =
      (((List.insertionSort priorityGE (r :: rs)).headD r).action.getD noActionDefault,
        List.insertionSort priorityGE (r :: rs)) := by
  have h' : rules.filter (fun r => rule_matches facts r) = r :: rs := h
  unfold run_rules
  rw [h']

theorem insertionSort_prio_ne_nil (r : Rule) (rs : List Rule) :
    List.insertionSort priorityGE (r :: rs) ≠ [] := by
  intro h
  have hlen := (List.perm_insertionSort priorityGE (r :: rs)).length_eq
  rw [h] at hlen
  simp at hlen

theorem run_rules_snd_sorted (facts : Facts) (rules : List Rule) :
    List.Sorted priorityGE ((run_rules facts rules).2) := by
  cases hf : firedOf facts rules with
  | nil =>
    rw [run_rules_of_fired_nil facts rules hf]
    exact List.sorted_nil
  | cons r rs =>
    rw [run_rules_of_fired_cons facts rules r rs hf]
    exact List.sorted_insertionSort priorityGE (r :: rs)

theorem filter_orderedInsert_prio_eq (p : ℚ) (a : Rule) (l : List Rule) (ha : prio a = p) :
    (List.orderedInsert priorityGE a l).filter (fun r => decide (prio r = p)) =
      a :: l.filter (fun r => decide (prio r = p)) := by
  induction l with
  | nil => simp [ha]
  | cons b l ih =>
    by_cases hb : priorityGE a b
    · simp [List.orderedInsert, hb, ha]
    · have hbp : prio b ≠ p := by
        intro hbp
        exact hb (le_of_eq (ha ▸ hbp))
      simp only [List.orderedInsert, if_neg hb, List.filter_cons]
      rw [ih]
      simp [hbp]

theorem filter_orderedInsert_prio_ne (p : ℚ) (a : Rule) (l : List Rule) (ha : prio a ≠ p) :
    (List.orderedInsert priorityGE a l).filter (fun r => decide (prio r = p)) =
      l.filter (fun r => decide (prio r = p)) := by
  induction l with
  | nil => simp [ha]
  | cons b l ih =>
    by_cases hb : priorityGE a b
    · simp [List.orderedInsert, hb, ha]
    · simp only [List.orderedInsert, if_neg hb, List.filter_cons]
      rw [ih]

theorem filter_insertionSort_prio (p : ℚ) (l : List Rule) :
    (List.insertionSort priorityGE l).filter (fun r => decide (prio r = p)) =
      l.filter (fun r => decide (prio r = p)) := by
  induction l with
  | nil => rfl
  | cons a l ih =>
    by_cases ha : prio a = p
    · rw [List.insertionSort, filter_orderedInsert_prio_eq p a _ ha, ih]
      simp [ha]
    · rw [List.insertionSort, filter_orderedInsert_prio_ne p a _ ha, ih]
      simp [ha]

/-! Theorems settling the specification claims. -/

/-- C3 (counterexample): on the empty rule set (no rule matches) the
engine does return a fixed reject default with an empty fired list, but
its reason string is "No rule criteria matched for an award or review",
not "no rule matched" as the claim states. -/
theorem no_match_reason_counterexample :
    (run_rules [] []).2 = [] ∧
    (run_rules [] []).1 =
      .act ⟨"REJECT", "No rule criteria matched for an award or review"⟩ ∧
    (run_rules [] []).1 ≠ .act ⟨"REJECT", "no rule matched"⟩ ∧
    (run_rules [] []).1 ≠ .act ⟨"reject", "no rule matched"⟩ := by
  decide

/-- C3 (amended): for every fact set, if no rule matches (in particular
for an empty rule set), `run_rules` returns the fixed default action
{decision: "REJECT", reason: "No rule criteria matched for an award or
review"} and an empty fired list. -/
theorem run_rules_no_match_default (facts : Facts) (rules : List Rule)
    (h : firedOf facts rules = []) :
    run_rules facts rules =
      (.act ⟨"REJECT", "No rule criteria matched for an award or review"⟩, []) :=
  run_rules_of_fired_nil facts rules h

/-- C3 (witness): the amended claim at the empty rule set. -/
theorem run_rules_no_match_default_witness :
    firedOf [] [] = [] ∧
    run_rules [] [] =
      (.act ⟨"REJECT", "No rule criteria matched for an award or review"⟩, []) :=
  ⟨by decide, run_rules_no_match_default [] [] (by decide)⟩

/-- C9: a rule record lacking a `conditions` key entirely is treated as
having an empty condition list, so it matches unconditionally. -/
theorem rule_matches_missing_conditions (facts : Facts) (rule : Rule)
    (h : rule.conditions = none) : rule_matches facts rule = true := by
  simp [rule_matches, h]

/-- C9 (witness): a bare rule with no keys at all matches nonempty facts. -/
theorem rule_matches_missing_conditions_witness :
    (Rule.conditions ⟨none, none, none, none⟩ = none) ∧
    rule_matches [("a", .int 1)] ⟨none, none, none, none⟩ = true :=
  ⟨rfl, rule_matches_missing_conditions [("a", .int 1)] ⟨none, none, none, none⟩ rfl⟩

/-- C8: `run_rules` is a deterministic function of its two inputs: two
runs on equal fact sets and equal rule sets return equal results. -/
theorem run_rules_deterministic (facts facts' : Facts) (rules rules' : List Rule)
    (hf : facts = facts') (hr : rules = rules') :
    run_rules facts rules = run_rules facts' rules' := by
  rw [hf, hr]

/-- C8 (witness): determinism at a concrete input. -/
theorem run_rules_deterministic_witness :
    run_rules demoFacts SCHOLARSHIP_RULES = run_rules demoFacts SCHOLARSHIP_RULES :=
  run_rules_deterministic demoFacts demoFacts SCHOLARSHIP_RULES SCHOLARSHIP_RULES rfl rfl

/-- C7: on facts {cgpa 3.8, co-curricular score 85, family income 7000,
disciplinary actions 0} the default rule set yields the "AWARD FULL"
decision: the top-merit rule (priority 100) fires together with the
partial-scholarship rule (priority 80) and wins on priority. -/
theorem run_rules_demo_award_full :
    (run_rules demoFacts SCHOLARSHIP_RULES).1 =
      .act ⟨"AWARD FULL",
        "Excellent academic & co-curricular performance, with acceptable need"⟩ ∧
    ((run_rules demoFacts SCHOLARSHIP_RULES).2).map (fun r => r.name) =
      [some "Top merit candidate", some "Good candidate partial scholarship"] ∧
    ((run_rules demoFacts SCHOLARSHIP_RULES).2).map (fun r => r.priority) =
      [some 100, some 80] := by
  decide

/-- C4 (counterexample): a matching rule whose `"action"` value is
present but not a well-formed action dictionary (here the number 5) is
returned verbatim; the engine does not substitute the review default. -/
theorem malformed_action_counterexample :
    rule_matches [] malformedActionRule = true ∧
    malformedActionRule.action = some (.raw (.int 5)) ∧
    AVal.isWellFormed (.raw (.int 5)) = false ∧
    (run_rules [] [malformedActionRule]).1 = .raw (.int 5) ∧
    (run_rules [] [malformedActionRule]).1 ≠
      .act ⟨"REVIEW", "Matched rule has no defined action"⟩ := by
  decide

/-- C4 (amended): if the top matching rule has no `"action"` key at
all, `run_rules` substitutes the default action {decision: "REVIEW",
reason: "Matched rule has no defined action"}; (an action value that is
present but malformed is instead returned verbatim). -/
theorem run_rules_missing_action_default (facts : Facts) (rules : List Rule)
    (r : Rule) (rs : List Rule)
    (h : (run_rules facts rules).2 = r :: rs) (ha : r.action = none) :
    (run_rules facts rules).1 =
      .act ⟨"REVIEW", "Matched rule has no defined action"⟩ := by
  cases hf : firedOf facts rules with
  | nil =>
    rw [run_rules_of_fired_nil facts rules hf] at h
    cases h
  | cons f fs =>
    rw [run_rules_of_fired_cons facts rules f fs hf] at h ⊢
    simp only at h ⊢
    rw [h]
    simp [ha, noActionDefault]

/-- C4 (witness): the amended claim at a concrete actionless rule. -/
theorem run_rules_missing_action_default_witness :
    (run_rules [] [rulePos]).2 = [rulePos] ∧ rulePos.action = none ∧
    (run_rules [] [rulePos]).1 =
      .act ⟨"REVIEW", "Matched rule has no defined action"⟩ :=
  ⟨by decide, rfl, run_rules_missing_action_default [] [rulePos] rulePos [] (by decide) rfl⟩

/-- C6: a rule matches iff every one of its conditions holds (logical
AND); a rule whose condition list is empty matches unconditionally; and
a rule containing a condition whose field is absent from the facts
never matches. -/
theorem rule_matches_all_and (facts : Facts) (rule : Rule) :
    (rule_matches facts rule = true ↔
      ∀ c ∈ rule.conditions.getD [], evaluate_condition facts c = true) ∧
    (rule.conditions = some [] → rule_matches facts rule = true) ∧
    (∀ f o v, [f, o, v] ∈ rule.conditions.getD [] → fieldLookup facts f = none →
      rule_matches facts rule = false) := by
  refine ⟨List.all_eq_true, fun h => by simp [rule_matches, h], fun f o v hmem hf => ?_⟩
  have hc : evaluate_condition facts [f, o, v] = false := by
    simp only [evaluate_condition]
    rw [hf]
  rw [rule_matches, List.all_eq_false]
  exact ⟨[f, o, v], hmem, by simp [hc]⟩

/-- C6 (witness): a concrete catch-all rule with an empty condition
list matches on empty facts. -/
theorem rule_matches_all_and_witness :
    rule_matches [] ⟨some "catch-all", some 1, some [], none⟩ = true :=
  (rule_matches_all_and [] ⟨some "catch-all", some 1, some [], none⟩).2.1 rfl

theorem evaluate_condition_true_elim (facts : Facts) (f o v : PyVal)
    (h : evaluate_condition facts [f, o, v] = true) :
    (∃ fv a, fieldLookup facts f = some fv ∧ pyFloat fv = some a) ∧
    (∃ g, opLookup o = some g) ∧ (∃ b, pyFloat v = some b) := by
  simp only [evaluate_condition] at h
  cases hfl : fieldLookup facts f with
  | none => rw [hfl] at h; exact Bool.noConfusion h
  | some fv =>
    rw [hfl] at h
    cases ho : opLookup o with
    | none => rw [ho] at h; exact Bool.noConfusion h
    | some g =>
      rw [ho] at h
      have h' : (match pyFloat fv, pyFloat v with
          | some a, some b => g a b
          | _, _ => false) = true := h
      cases hfv : pyFloat fv with
      | none => rw [hfv] at h'; exact Bool.noConfusion h'
      | some a =>
        rw [hfv] at h'
        cases hv : pyFloat v with
        | none => rw [hv] at h'; exact Bool.noConfusion h'
        | some b => exact ⟨⟨fv, a, rfl, hfv⟩, ⟨g, rfl⟩, ⟨b, rfl⟩⟩

/-- On a condition list of hashable scalar values — the domain on which
the source reaches its `try:` block — the evaluator fails closed: wrong
arity, an absent (or non-string) field, an unrecognized operator, or a
value on either side that does not coerce to a number all give `false`. -/
theorem evaluate_condition_scalar_total (facts : Facts) (cond : List PyVal)
    (h : (∀ f o v, cond ≠ [f, o, v]) ∨
      ∃ f o v, cond = [f, o, v] ∧
        (fieldLookup facts f = none ∨ opLookup o = none ∨ pyFloat v = none ∨
          ∃ fv, fieldLookup facts f = some fv ∧ pyFloat fv = none)) :
    evaluate_condition facts cond = false := by
  rcases h with h1 | ⟨f, o, v, rfl, h2⟩
  · rcases cond with _ | ⟨a, _ | ⟨b, _ | ⟨c, _ | ⟨d, tl⟩⟩⟩⟩
    · rfl
    · rfl
    · rfl
    · exact absurd rfl (h1 a b c)
    · rfl
  · cases he : evaluate_condition facts [f, o, v] with
    | false => rfl
    | true =>
      exfalso
      obtain ⟨⟨fv, a, hfv, hfva⟩, ⟨g, hg⟩, ⟨b, hb⟩⟩ :=
        evaluate_condition_true_elim facts f o v he
      rcases h2 with hx | hx | hx | ⟨fv', h1', h2'⟩
      · rw [hx] at hfv; cases hfv
      · rw [hx] at hg; cases hg
      · rw [hx] at hb; cases hb
      · rw [h1'] at hfv
        injection hfv with hfv
        subst hfv
        rw [h2'] at hfva
        cases hfva

/-- The checked evaluator agrees with `evaluate_condition` on every
condition that is a 3-element array of hashable scalar values: on that
shared domain the checked model raises nothing and returns the same
Boolean. -/
theorem evaluate_condition_checked_agrees (facts : Facts) (f o v : PyVal) :
    evaluate_condition_checked facts (.arr [.val f, .val o, .val v]) =
      some (evaluate_condition facts [f, o, v]) := rfl

/-- C2 (counterexample): the evaluator is not total over arbitrary
malformed conditions.  A condition that is a JSON number (`sizeless`)
raises `TypeError` at `len(cond)`; an unhashable field, or an
unhashable operator when the field is present, raises `TypeError` at
the membership tests on line 90 — all before the `try:` block, hence
uncaught (`none`). -/
theorem evaluate_condition_raises_counterexample :
    evaluate_condition_checked [("x", .int 1)] .sizeless = none ∧
    evaluate_condition_checked [("x", .int 1)]
      (.arr [.unhashable, .val (.str "=="), .val (.int 0)]) = none ∧
    evaluate_condition_checked [("x", .int 1)]
      (.arr [.val (.str "x"), .unhashable, .val (.int 0)]) = none := by
  decide

/-- C2 (amended): an absent field, an unrecognized operator, or a value
that does not coerce to a number each make the evaluator return false —
including, by short-circuit, when an unhashable operator or value sits
behind an absent field, and including an unhashable value slot, whose
`float` failure the `try:` catches.  (The remaining condition shapes,
excluded here, are the uncaught `TypeError` paths of the
counterexample.) -/
theorem evaluate_condition_checked_total (facts : Facts) (cond : List JElem)
    (h : (∀ f o v, cond ≠ [f, o, v]) ∨
      (∃ fv o v, cond = [.val fv, o, v] ∧ fieldLookup facts fv = none) ∨
      (∃ fv ov v, cond = [.val fv, .val ov, v] ∧ opLookup ov = none) ∨
      (∃ fv ov, cond = [.val fv, .val ov, .unhashable]) ∨
      (∃ fv ov vv, cond = [.val fv, .val ov, .val vv] ∧ pyFloat vv = none) ∨
      (∃ fv ov v x, cond = [.val fv, .val ov, v] ∧ fieldLookup facts fv = some x ∧
        pyFloat x = none)) :
    evaluate_condition_checked facts (.arr cond) = some false := by
  rcases h with h1 | ⟨fv, o, v, rfl, hf⟩ | ⟨fv, ov, v, rfl, ho⟩ | ⟨fv, ov, rfl⟩ |
    ⟨fv, ov, vv, rfl, hv⟩ | ⟨fv, ov, v, x, rfl, hf, hx⟩
  · rcases cond with _ | ⟨a, _ | ⟨b, _ | ⟨c, _ | ⟨d, tl⟩⟩⟩⟩
    · rfl
    · cases a <;> rfl
    · cases a <;> cases b <;> rfl
    · exact absurd rfl (h1 a b c)
    · cases a <;> cases b <;> cases c <;> rfl
  · cases o with
    | unhashable =>
      show (if (fieldLookup facts fv).isSome then none else some false) = some false
      rw [hf]
      rfl
    | val ov =>
      cases v with
      | unhashable =>
        show some (evaluate_condition facts [fv, ov, PyVal.obj]) = some false
        rw [evaluate_condition_scalar_total facts [fv, ov, PyVal.obj]
          (Or.inr ⟨fv, ov, PyVal.obj, rfl, Or.inl hf⟩)]
      | val vv =>
        show some (evaluate_condition facts [fv, ov, vv]) = some false
        rw [evaluate_condition_scalar_total facts [fv, ov, vv]
          (Or.inr ⟨fv, ov, vv, rfl, Or.inl hf⟩)]
  · cases v with
    | unhashable =>
      show some (evaluate_condition facts [fv, ov, PyVal.obj]) = some false
      rw [evaluate_condition_scalar_total facts [fv, ov, PyVal.obj]
        (Or.inr ⟨fv, ov, PyVal.obj, rfl, Or.inr (Or.inl ho)⟩)]
    | val vv =>
      show some (evaluate_condition facts [fv, ov, vv]) = some false
      rw [evaluate_condition_scalar_total facts [fv, ov, vv]
        (Or.inr ⟨fv, ov, vv, rfl, Or.inr (Or.inl ho)⟩)]
  · show some (evaluate_condition facts [fv, ov, PyVal.obj]) = some false
    rw [evaluate_condition_scalar_total facts [fv, ov, PyVal.obj]
      (Or.inr ⟨fv, ov, PyVal.obj, rfl, Or.inr (Or.inr (Or.inl rfl))⟩)]
  · show some (evaluate_condition facts [fv, ov, vv]) = some false
    rw [evaluate_condition_scalar_total facts [fv, ov, vv]
      (Or.inr ⟨fv, ov, vv, rfl, Or.inr (Or.inr (Or.inl hv))⟩)]
  · cases v with
    | unhashable =>
      show some (evaluate_condition facts [fv, ov, PyVal.obj]) = some false
      rw [evaluate_condition_scalar_total facts [fv, ov, PyVal.obj]
        (Or.inr ⟨fv, ov, PyVal.obj, rfl, Or.inr (Or.inr (Or.inr ⟨x, hf, hx⟩))⟩)]
    | val vv =>
      show some (evaluate_condition facts [fv, ov, vv]) = some false
      rw [evaluate_condition_scalar_total facts [fv, ov, vv]
        (Or.inr ⟨fv, ov, vv, rfl, Or.inr (Or.inr (Or.inr ⟨x, hf, hx⟩))⟩)]

/-- C2 (witness): an unhashable operator sitting behind an absent field
is never tested (`or` short-circuits), so the evaluator returns false
rather than raising. -/
theorem evaluate_condition_checked_total_witness :
    fieldLookup [] (.str "x") = none ∧
    evaluate_condition_checked []
      (.arr [.val (.str "x"), .unhashable, .val (.int 1)]) = some false :=
  ⟨rfl, evaluate_condition_checked_total []
    [.val (.str "x"), .unhashable, .val (.int 1)]
    (Or.inr (Or.inl ⟨.str "x", .unhashable, .val (.int 1), rfl, rfl⟩))⟩

/-- C5: the evaluator coerces both the fact's value and the threshold
to a number before comparing, so any two fact values with the same
coercion and any two thresholds with the same coercion give the same
match result; integer 3, float 3.0 and string "3" all coerce to the
same number. -/
theorem evaluate_condition_coerces (facts facts' : Facts) (f o : String)
    (v v' t t' : PyVal)
    (hl : List.lookup f facts = some v) (hl' : List.lookup f facts' = some v')
    (hv : pyFloat v = pyFloat v') (ht : pyFloat t = pyFloat t') :
    evaluate_condition facts [.str f, .str o, t] =
      evaluate_condition facts' [.str f, .str o, t'] := by
  cases ho : opLookup (.str o) with
  | none => simp only [evaluate_condition, fieldLookup, hl, hl', ho]
  | some g => simp only [evaluate_condition, fieldLookup, hl, hl', ho, hv, ht]

/-- C5 (witness): the fact value as integer 3, float 3.0 or string "3"
and the threshold in either of those forms give the same result. -/
theorem evaluate_condition_coerces_witness :
    List.lookup "x" [("x", (.int 3 : PyVal))] = some (.int 3) ∧
    List.lookup "x" [("x", (.str "3" : PyVal))] = some (.str "3") ∧
    pyFloat (.int 3) = pyFloat (.str "3") ∧
    pyFloat (.float 3) = pyFloat (.int 3) ∧
    evaluate_condition [("x", .int 3)] [.str "x", .str ">=", .float 3] =
      evaluate_condition [("x", .str "3")] [.str "x", .str ">=", .int 3] :=
  ⟨by decide, by decide, by decide, by decide,
    evaluate_condition_coerces [("x", .int 3)] [("x", .str "3")] "x" ">="
      (.int 3) (.str "3") (.float 3) (.int 3) (by decide) (by decide)
      (by decide) (by decide)⟩

/-- C1: with at least one matching rule, `run_rules` returns exactly
the matching rules (a permutation of the fired list), ordered by
priority descending, stably: rules of any fixed priority keep the
relative order they have among the matching rules of the input; and the
returned decision is the action of the first element of this sorted
list. -/
theorem run_rules_resolution (facts : Facts) (rules : List Rule)
    (h : firedOf facts rules ≠ []) :
    ((run_rules facts rules).2).Perm (firedOf facts rules) ∧
    List.Sorted priorityGE ((run_rules facts rules).2) ∧
    (∀ p : ℚ, ((run_rules facts rules).2).filter (fun r => decide (prio r = p)) =
      (firedOf facts rules).filter (fun r => decide (prio r = p))) ∧
    ∃ r rs, (run_rules facts rules).2 = r :: rs ∧
      ∀ a, r.action = some a → (run_rules facts rules).1 = a := by
  cases hf : firedOf facts rules with
  | nil => exact absurd hf h
  | cons r rs =>
    rw [run_rules_of_fired_cons facts rules r rs hf]
    refine ⟨List.perm_insertionSort priorityGE (r :: rs),
      List.sorted_insertionSort priorityGE (r :: rs),
      fun p => filter_insertionSort_prio p (r :: rs), ?_⟩
    cases hs : List.insertionSort priorityGE (r :: rs) with
    | nil => exact absurd hs (insertionSort_prio_ne_nil r rs)
    | cons x xs =>
      refine ⟨x, xs, rfl, fun a ha => ?_⟩
      show ((x :: xs).headD r).action.getD noActionDefault = a
      rw [List.headD_cons, ha, Option.getD_some]

/-- C1 (witness): the characterization at a rule set with a priority
tie (tieA before tieB, both priority 5, and a priority-1 rule). -/
theorem run_rules_resolution_witness :
    firedOf [] [ruleTieA, rulePos, ruleTieB] ≠ [] ∧
    (((run_rules [] [ruleTieA, rulePos, ruleTieB]).2).Perm
        (firedOf [] [ruleTieA, rulePos, ruleTieB]) ∧
      List.Sorted priorityGE ((run_rules [] [ruleTieA, rulePos, ruleTieB]).2) ∧
      (∀ p : ℚ,
        ((run_rules [] [ruleTieA, rulePos, ruleTieB]).2).filter
            (fun r => decide (prio r = p)) =
          (firedOf [] [ruleTieA, rulePos, ruleTieB]).filter
            (fun r => decide (prio r = p))) ∧
      ∃ r rs, (run_rules [] [ruleTieA, rulePos, ruleTieB]).2 = r :: rs ∧
        ∀ a, r.action = some a →
          (run_rules [] [ruleTieA, rulePos, ruleTieB]).1 = a) :=
  ⟨by decide, run_rules_resolution [] [ruleTieA, rulePos, ruleTieB] (by decide)⟩

/-- C10: in the fired list returned by `run_rules`, a rule lacking a
priority key has effective sort key 0, so it appears after every rule
with positive priority and before every rule with negative priority. -/
theorem missing_priority_ranks_as_zero (facts : Facts) (rules : List Rule)
    (i j : Nat) (ri rj : Rule) (p : ℚ)
    (hi : ((run_rules facts rules).2).get? i = some ri)
    (hj : ((run_rules facts rules).2).get? j = some rj)
    (hni : ri.priority = none) (hpj : rj.priority = some p) :
    prio ri = 0 ∧ (0 < p → j < i) ∧ (p < 0 → i < j) := by
  have hsorted := run_rules_snd_sorted facts rules
  have hpi : prio ri = 0 := by rw [prio, hni]; rfl
  have hpjv : prio rj = p := by rw [prio, hpj]; rfl
  obtain ⟨hilt, hig⟩ := List.get?_eq_some.mp hi
  obtain ⟨hjlt, hjg⟩ := List.get?_eq_some.mp hj
  refine ⟨hpi, fun hp => ?_, fun hp => ?_⟩
  · by_contra hji
    push_neg at hji
    rcases lt_or_eq_of_le hji with hlt | heq
    · have hrel := hsorted.rel_get_of_lt (a := ⟨i, hilt⟩) (b := ⟨j, hjlt⟩)
        (Fin.mk_lt_mk.mpr hlt)
      rw [hig, hjg] at hrel
      rw [priorityGE, hpi, hpjv] at hrel
      exact absurd (lt_of_lt_of_le hp hrel) (lt_irrefl 0)
    · subst heq
      rw [hig] at hjg
      rw [hjg] at hni
      rw [hni] at hpj
      cases hpj
  · by_contra hij
    push_neg at hij
    rcases lt_or_eq_of_le hij with hlt | heq
    · have hrel := hsorted.rel_get_of_lt (a := ⟨j, hjlt⟩) (b := ⟨i, hilt⟩)
        (Fin.mk_lt_mk.mpr hlt)
      rw [hig, hjg] at hrel
      rw [priorityGE, hpi, hpjv] at hrel
      exact absurd (lt_of_le_of_lt hrel hp) (lt_irrefl 0)
    · subst heq
      rw [hig] at hjg
      rw [hjg] at hni
      rw [hni] at hpj
      cases hpj

/-- C10 (witness): with a priority-1 rule, a priority-less rule and a
priority-(-1) rule all matching, the priority-less rule sits between
the other two. -/
theorem missing_priority_ranks_as_zero_witness :
    (run_rules [] [rulePos, ruleNoPrio, ruleNeg]).2.get? 1 = some ruleNoPrio ∧
    (run_rules [] [rulePos, ruleNoPrio, ruleNeg]).2.get? 0 = some rulePos ∧
    ruleNoPrio.priority = none ∧ rulePos.priority = some 1 ∧
    (prio ruleNoPrio = 0 ∧ ((0 : ℚ) < 1 → 0 < 1) ∧ ((1 : ℚ) < 0 → 1 < 0)) :=
  ⟨by decide, by decide, rfl, rfl,
    missing_priority_ranks_as_zero [] [rulePos, ruleNoPrio, ruleNeg] 1 0
      ruleNoPrio rulePos 1 (by decide) (by decide) rfl rfl⟩

end SD23039
